import Mathlib

/-!
Verification of the zoom-pan transformation engine (`src/renderer/renderer.ts`,
`src/renderer/transform-calculator.ts`, `src/core/utils.ts`) against its
natural-language specification.

JavaScript numbers are modelled by `JSNum`: an exact rational for every finite
value, plus the special values `NaN`, `Infinity` and `-Infinity`, with the
IEEE-style propagation rules of `+`, `/`, `Math.max` and `Math.min` that the
source relies on.  Rounding of binary doubles is abstracted away (the spec's
data model speaks of real numbers); negative zero is identified with zero.
-/

inductive JSNum where
  | num (q : ℚ)
  | nan
  | posInf
  | negInf
deriving DecidableEq, Repr

/-- Addition of JavaScript numbers: `NaN` propagates, opposite infinities
give `NaN`, an infinity absorbs any finite value. -/
def jsAdd : JSNum → JSNum → JSNum
  | JSNum.nan, _ => JSNum.nan
  | _, JSNum.nan => JSNum.nan
  | JSNum.posInf, JSNum.negInf => JSNum.nan
  | JSNum.negInf, JSNum.posInf => JSNum.nan
  | JSNum.posInf, _ => JSNum.posInf
  | _, JSNum.posInf => JSNum.posInf
  | JSNum.negInf, _ => JSNum.negInf
  | _, JSNum.negInf => JSNum.negInf
  | JSNum.num a, JSNum.num b => JSNum.num (a + b)

/-- Division of JavaScript numbers: `0/0 = NaN`, a nonzero finite value divided
by zero gives a signed infinity, a finite value divided by an infinity gives
zero, and `NaN` propagates. -/
def jsDiv : JSNum → JSNum → JSNum
  | JSNum.nan, _ => JSNum.nan
  | _, JSNum.nan => JSNum.nan
  | JSNum.posInf, JSNum.posInf => JSNum.nan
  | JSNum.posInf, JSNum.negInf => JSNum.nan
  | JSNum.negInf, JSNum.posInf => JSNum.nan
  | JSNum.negInf, JSNum.negInf => JSNum.nan
  | JSNum.posInf, JSNum.num b => if b < 0 then JSNum.negInf else JSNum.posInf
  | JSNum.negInf, JSNum.num b => if b < 0 then JSNum.posInf else JSNum.negInf
  | JSNum.num _, JSNum.posInf => JSNum.num 0
  | JSNum.num _, JSNum.negInf => JSNum.num 0
  | JSNum.num a, JSNum.num b =>
      if b = 0 then
        if a = 0 then JSNum.nan
        else if a < 0 then JSNum.negInf else JSNum.posInf
      else JSNum.num (a / b)

/-- `Math.max` on two JavaScript numbers (`NaN` wins, otherwise the larger). -/
def jsMax : JSNum → JSNum → JSNum
  | JSNum.nan, _ => JSNum.nan
  | _, JSNum.nan => JSNum.nan
  | JSNum.posInf, _ => JSNum.posInf
  | _, JSNum.posInf => JSNum.posInf
  | JSNum.negInf, b => b
  | a, JSNum.negInf => a
  | JSNum.num a, JSNum.num b => JSNum.num (max a b)

/-- `Math.min` on two JavaScript numbers (`NaN` wins, otherwise the smaller). -/
def jsMin : JSNum → JSNum → JSNum
  | JSNum.nan, _ => JSNum.nan
  | _, JSNum.nan => JSNum.nan
  | JSNum.negInf, _ => JSNum.negInf
  | _, JSNum.negInf => JSNum.negInf
  | JSNum.posInf, b => b
  | a, JSNum.posInf => a
  | JSNum.num a, JSNum.num b => JSNum.num (min a b)

/-- `Number.isFinite`. -/
def jsFinite : JSNum → Bool
  | JSNum.num _ => true
  | _ => false

theorem jsAdd_num_num (a b : ℚ) : jsAdd (JSNum.num a) (JSNum.num b) = JSNum.num (a + b) := rfl

theorem jsDiv_num_num (a b : ℚ) (hb : b ≠ 0) :
    jsDiv (JSNum.num a) (JSNum.num b) = JSNum.num (a / b) := by
  simp [jsDiv, hb]

theorem jsMax_num_num (a b : ℚ) : jsMax (JSNum.num a) (JSNum.num b) = JSNum.num (max a b) := rfl

theorem jsMin_num_num (a b : ℚ) : jsMin (JSNum.num a) (JSNum.num b) = JSNum.num (min a b) := rfl

/-- Adding two finite increments one after the other is the same as adding
their sum, whatever the (possibly non-finite) starting value. -/
theorem jsAdd_num_assoc (x : JSNum) (a b : ℚ) :
    jsAdd (jsAdd x (JSNum.num a)) (JSNum.num b) = jsAdd x (JSNum.num (a + b)) := by
  cases x <;> simp [jsAdd, add_assoc]

/-!
Serialization of JavaScript numbers to strings, as performed by the template
literals of the source (`matrix(${scale}, ...)`, `${originX}px ...`).
JavaScript prints every double as its shortest exact decimal, which is an
injective, exactly invertible rendering; the model renders the exact rational
as `num` or `num/den` (suppressing the denominator 1, so that integers print
exactly as in JavaScript), which is likewise injective and exactly invertible.
Non-finite values print as `NaN`, `Infinity` and `-Infinity`, as in JavaScript.
-/

/-- Decimal digit to character. -/
def digitChar : ℕ → Char
  | 0 => '0' | 1 => '1' | 2 => '2' | 3 => '3' | 4 => '4'
  | 5 => '5' | 6 => '6' | 7 => '7' | 8 => '8' | _ => '9'

/-- Character to decimal digit, `none` on a non-digit. -/
def charVal (c : Char) : Option ℕ :=
  if c = '0' then some 0 else if c = '1' then some 1 else if c = '2' then some 2
  else if c = '3' then some 3 else if c = '4' then some 4 else if c = '5' then some 5
  else if c = '6' then some 6 else if c = '7' then some 7 else if c = '8' then some 8
  else if c = '9' then some 9 else none

/-- Decimal rendering of a natural number. -/
def natChars (n : ℕ) : List Char :=
  if n = 0 then ['0'] else ((Nat.digits 10 n).map digitChar).reverse

/-- Rendering of an exact rational: sign, numerator, and denominator when it
is not 1 (so integers render exactly as JavaScript renders them). -/
def ratChars (q : ℚ) : List Char :=
  (if q < 0 then ['-'] else []) ++ natChars q.num.natAbs ++
    (if q.den = 1 then [] else '/' :: natChars q.den)

def infChars : List Char := ['I', 'n', 'f', 'i', 'n', 'i', 't', 'y']

/-- Rendering of a JavaScript number, as `${v}` produces it. -/
def jsChars : JSNum → List Char
  | JSNum.num q => ratChars q
  | JSNum.nan => ['N', 'a', 'N']
  | JSNum.posInf => infChars
  | JSNum.negInf => '-' :: infChars

/-- String form of a JavaScript number. -/
def jsToString (v : JSNum) : String := String.mk (jsChars v)

/-!
The data model and operations of `Renderer` (`src/renderer/renderer.ts`),
together with the pure functions of `src/renderer/transform-calculator.ts`
and `src/core/utils.ts` that they delegate to.  The DOM element is modelled
by the two style fields the engine writes.
-/

/-- The two style properties of the host surface that the engine writes. -/
structure Element where
  transformOrigin : String
  transform : String
deriving DecidableEq, Repr

/-- `ITransformation`: the mutable transformation state. -/
structure Transformation where
  originX : JSNum
  originY : JSNum
  translateX : JSNum
  translateY : JSNum
  scale : JSNum
deriving DecidableEq, Repr

/-- `IRendererConfig` as supplied to the constructor: `scaleSensitivity`
is optional. -/
structure RendererConfigIn where
  minScale : JSNum
  maxScale : JSNum
  scaleSensitivity : Option JSNum
deriving DecidableEq, Repr

/-- The configuration after the constructor's `{ scaleSensitivity: 10, ...config }`
spread has filled in the default. -/
structure RendererConfig where
  minScale : JSNum
  maxScale : JSNum
  scaleSensitivity : JSNum
deriving DecidableEq, Repr

/-- The `Renderer` object: state, configuration, and the active flag. -/
structure Renderer where
  state : Transformation
  config : RendererConfig
  isActiveFlag : Bool
deriving DecidableEq, Repr

/-- `getInitialState` of `Renderer`. -/
def getInitialState : Transformation :=
  { originX := JSNum.num 0
    originY := JSNum.num 0
    translateX := JSNum.num 0
    translateY := JSNum.num 0
    scale := JSNum.num 1 }

/-- The `Renderer` constructor: applies the default sensitivity 10 when the
option is absent, and installs the initial state with the active flag set. -/
def mkRenderer (config : RendererConfigIn) : Renderer :=
  { state := getInitialState
    config :=
      { minScale := config.minScale
        maxScale := config.maxScale
        scaleSensitivity := config.scaleSensitivity.getD (JSNum.num 10) }
    isActiveFlag := true }

/-- `clamp` from `src/core/utils.ts`: `Math.max(min, Math.min(value, max))`. -/
def clamp (value mn mx : JSNum) : JSNum :=
  jsMax mn (jsMin value mx)

/-- `isValidTransformation` from `src/renderer/transform-calculator.ts`:
all three values are finite. -/
def isValidTransformation (scale translateX translateY : JSNum) : Bool :=
  jsFinite scale && jsFinite translateX && jsFinite translateY

/-- `calculateScale` from `src/renderer/transform-calculator.ts`: the candidate
is `scale + deltaScale / (scaleSensitivity / scale)`, then clamped; returns
`[oldScale, newScale]`. -/
def calculateScale (scale deltaScale minScale maxScale scaleSensitivity : JSNum) :
    JSNum × JSNum :=
  let oldScale := scale
  let newScale := jsAdd scale (jsDiv deltaScale (jsDiv scaleSensitivity scale))
  (oldScale, clamp newScale minScale maxScale)

/-- `calculateTransformOrigin` from `src/renderer/transform-calculator.ts`. -/
def calculateTransformOrigin (pos scale : JSNum) : JSNum :=
  jsDiv pos scale

def matrixPrefixChars : List Char := ['m', 'a', 't', 'r', 'i', 'x', '(']

def sepChars : List Char := [',', ' ']

/-- `getMatrixTransform` from `src/renderer/transform-calculator.ts`: the
template literal `matrix(${scale}, 0, 0, ${scale}, ${translateX}, ${translateY})`. -/
def getMatrixTransform (scale translateX translateY : JSNum) : String :=
  String.mk (matrixPrefixChars ++ jsChars scale ++ sepChars ++ ['0'] ++ sepChars ++ ['0'] ++
    sepChars ++ jsChars scale ++ sepChars ++ jsChars translateX ++ sepChars ++
    jsChars translateY ++ [')'])

/-- `Renderer.applyTransform`: when the state is not a valid (finite)
transformation, warn and leave the element untouched; otherwise write the
`transformOrigin` (template literal with `px` units) and the matrix string.
Not gated on the active flag. -/
def Renderer.applyTransform (r : Renderer) (element : Element) : Element :=
  if isValidTransformation r.state.scale r.state.translateX r.state.translateY = false then
    element
  else
    { transformOrigin :=
        jsToString r.state.originX ++ "px " ++ jsToString r.state.originY ++ "px"
      transform :=
        getMatrixTransform r.state.scale r.state.translateX r.state.translateY }

/-- `IZoomParams`: the source destructures only `element` and `deltaScale`;
`x` and `y` are carried but unused. -/
structure ZoomParams where
  element : Element
  x : JSNum
  y : JSNum
  deltaScale : JSNum

/-- `IPanByParams` (the relative deltas are named `originX`/`originY`). -/
structure PanByParams where
  element : Element
  originX : JSNum
  originY : JSNum

/-- `IPanToParams`: absolute target with optional scale. -/
structure PanToParams where
  element : Element
  originX : JSNum
  originY : JSNum
  scale : Option JSNum

/-- `Renderer.zoom`: when active, computes
`newScale = scale + deltaScale / scaleSensitivity`, stores
`Math.max(minScale, Math.min(maxScale, newScale))` into `state.scale`, and
applies the transform to the element.  Returns the updated renderer and
element (a no-op when inactive). -/
def Renderer.zoom (r : Renderer) (params : ZoomParams) : Renderer × Element :=
  if r.isActiveFlag = false then (r, params.element)
  else
    let newScale := jsAdd r.state.scale (jsDiv params.deltaScale r.config.scaleSensitivity)
    let r' : Renderer :=
      { r with state :=
          { r.state with
              scale := jsMax r.config.minScale (jsMin r.config.maxScale newScale) } }
    (r', r'.applyTransform params.element)

/-- `Renderer.panBy`: when active, adds the deltas to `translateX`/`translateY`
and applies the transform. -/
def Renderer.panBy (r : Renderer) (params : PanByParams) : Renderer × Element :=
  if r.isActiveFlag = false then (r, params.element)
  else
    let r' : Renderer :=
      { r with state :=
          { r.state with
              translateX := jsAdd r.state.translateX params.originX
              translateY := jsAdd r.state.translateY params.originY } }
    (r', r'.applyTransform params.element)

/-- `Renderer.panTo`: when active, clamps and stores the optional scale, sets
the translation absolutely, and applies the transform. -/
def Renderer.panTo (r : Renderer) (params : PanToParams) : Renderer × Element :=
  if r.isActiveFlag = false then (r, params.element)
  else
    let withScale : Renderer :=
      match params.scale with
      | some s =>
          { r with state :=
              { r.state with
                  scale := jsMax r.config.minScale (jsMin r.config.maxScale s) } }
      | none => r
    let r' : Renderer :=
      { withScale with state :=
          { withScale.state with
              translateX := params.originX
              translateY := params.originY } }
    (r', r'.applyTransform params.element)

/-- `Renderer.reset`: when active, restores the initial state (no element
write). -/
def Renderer.reset (r : Renderer) : Renderer :=
  if r.isActiveFlag = false then r
  else { r with state := getInitialState }

/-- `Renderer.getState`: a value copy of the state. -/
def Renderer.getState (r : Renderer) : Transformation := r.state

/-- `Renderer.isActive`. -/
def Renderer.isActive (r : Renderer) : Bool := r.isActiveFlag

/-- `Renderer.destroy`: clears the active flag. -/
def Renderer.destroy (r : Renderer) : Renderer :=
  { r with isActiveFlag := false }

/-!
Basic facts about the engine operations.
-/

theorem zoom_fst_config (r : Renderer) (p : ZoomParams) :
    ((r.zoom p).1).config = r.config := by
  by_cases h : r.isActiveFlag = false <;> simp [Renderer.zoom, h]

theorem zoom_fst_isActiveFlag (r : Renderer) (p : ZoomParams) :
    ((r.zoom p).1).isActiveFlag = r.isActiveFlag := by
  by_cases h : r.isActiveFlag = false <;> simp [Renderer.zoom, h]

theorem zoom_fst_state_scale (r : Renderer) (p : ZoomParams) (h : r.isActiveFlag = true) :
    ((r.zoom p).1).state.scale =
      jsMax r.config.minScale (jsMin r.config.maxScale
        (jsAdd r.state.scale (jsDiv p.deltaScale r.config.scaleSensitivity))) := by
  simp [Renderer.zoom, h]

theorem zoom_fst_state_originX (r : Renderer) (p : ZoomParams) :
    ((r.zoom p).1).state.originX = r.state.originX := by
  by_cases h : r.isActiveFlag = false <;> simp [Renderer.zoom, h]

theorem zoom_fst_state_originY (r : Renderer) (p : ZoomParams) :
    ((r.zoom p).1).state.originY = r.state.originY := by
  by_cases h : r.isActiveFlag = false <;> simp [Renderer.zoom, h]

/-- One clamped zoom step on finite values, with the bounds it guarantees. -/
theorem clamp_step_bounds (mn mx sn s d : ℚ) (hle : mn ≤ mx) (hsn : sn ≠ 0) :
    jsMax (JSNum.num mn) (jsMin (JSNum.num mx)
        (jsAdd (JSNum.num s) (jsDiv (JSNum.num d) (JSNum.num sn)))) =
      JSNum.num (max mn (min mx (s + d / sn))) ∧
    mn ≤ max mn (min mx (s + d / sn)) ∧ max mn (min mx (s + d / sn)) ≤ mx := by
  refine ⟨?_, le_max_left _ _, max_le hle (min_le_left _ _)⟩
  rw [jsDiv_num_num _ _ hsn, jsAdd_num_num, jsMin_num_num, jsMax_num_num]

/-- The engine-state evolution of a sequence of `zoom` calls (the element
writes do not feed back into the engine state). -/
def zoomFold (r : Renderer) (ps : List ZoomParams) : Renderer :=
  ps.foldl (fun acc p => (acc.zoom p).1) r

theorem zoomFold_scale_bounds (mn mx sn : ℚ) (hle : mn ≤ mx) (hsn : sn ≠ 0) :
    ∀ (ps : List ZoomParams) (r : Renderer),
      r.config.minScale = JSNum.num mn → r.config.maxScale = JSNum.num mx →
      r.config.scaleSensitivity = JSNum.num sn → r.isActiveFlag = true →
      (∀ p ∈ ps, ∃ d : ℚ, p.deltaScale = JSNum.num d) →
      (∃ s0 : ℚ, r.state.scale = JSNum.num s0) → ps ≠ [] →
      ∃ s : ℚ, (zoomFold r ps).state.scale = JSNum.num s ∧ mn ≤ s ∧ s ≤ mx := by
  intro ps
  induction ps with
  | nil => intro r _ _ _ _ _ _ hne; exact absurd rfl hne
  | cons p ps ih =>
    intro r hmn hmx hsnc hact hdeltas hs _
    obtain ⟨s0, hs0⟩ := hs
    obtain ⟨d, hd⟩ := hdeltas p (List.mem_cons_self p ps)
    have hstep : ((r.zoom p).1).state.scale =
        JSNum.num (max mn (min mx (s0 + d / sn))) := by
      rw [zoom_fst_state_scale r p hact, hmn, hmx, hsnc, hs0, hd,
        (clamp_step_bounds mn mx sn s0 d hle hsn).1]
    rcases List.eq_nil_or_concat ps with hnil | _
    · subst hnil
      exact ⟨max mn (min mx (s0 + d / sn)), hstep,
        (clamp_step_bounds mn mx sn s0 d hle hsn).2⟩
    · have hne' : ps ≠ [] := by
        rintro rfl
        simp_all
      have : zoomFold r (p :: ps) = zoomFold ((r.zoom p).1) ps := rfl
      rw [this]
      refine ih ((r.zoom p).1) ?_ ?_ ?_ ?_ ?_ ?_ hne'
      · rw [zoom_fst_config]; exact hmn
      · rw [zoom_fst_config]; exact hmx
      · rw [zoom_fst_config]; exact hsnc
      · rw [zoom_fst_isActiveFlag]; exact hact
      · intro q hq; exact hdeltas q (List.mem_cons_of_mem p hq)
      · exact ⟨_, hstep⟩

/-- A blank surface used for concrete instantiations. -/
def el0 : Element := { transformOrigin := "", transform := "" }

/-- The configuration of the test scenarios: `minScale 0.1, maxScale 10,
scaleSensitivity 10`. -/
def cfg0 : RendererConfigIn :=
  { minScale := JSNum.num (1/10), maxScale := JSNum.num 10,
    scaleSensitivity := some (JSNum.num 10) }

/-- C1: for every engine whose configuration satisfies the `EngineConfig`
contract (`minScale ≤ maxScale`, positive `scaleSensitivity`) and whose
current scale is a finite real — as holds from construction on — every
nonempty sequence of `zoom` calls with real `deltaScale` values ends (and,
since the initial state is arbitrary, passes through every intermediate
call) with `minScale ≤ scale ≤ maxScale`. -/
theorem C1_clamping_invariant (mn mx sn : ℚ) (r : Renderer) (ps : List ZoomParams)
    (hmn : r.config.minScale = JSNum.num mn) (hmx : r.config.maxScale = JSNum.num mx)
    (hsn : r.config.scaleSensitivity = JSNum.num sn)
    (hle : mn ≤ mx) (hpos : 0 < sn) (hact : r.isActiveFlag = true)
    (hs : ∃ s0 : ℚ, r.state.scale = JSNum.num s0)
    (hdeltas : ∀ p ∈ ps, ∃ d : ℚ, p.deltaScale = JSNum.num d) (hne : ps ≠ []) :
    ∃ s : ℚ, (zoomFold r ps).state.scale = JSNum.num s ∧ mn ≤ s ∧ s ≤ mx :=
  zoomFold_scale_bounds mn mx sn hle (ne_of_gt hpos) ps r hmn hmx hsn hact hdeltas hs hne

/-- Witness for C1 at the scenario configuration and a single extreme zoom. -/
theorem C1_clamping_invariant_witness :
    ∃ s : ℚ,
      (zoomFold (mkRenderer cfg0)
        [{ element := el0, x := JSNum.num 0, y := JSNum.num 0,
           deltaScale := JSNum.num 1000 }]).state.scale = JSNum.num s ∧
      1/10 ≤ s ∧ s ≤ 10 := by
  refine C1_clamping_invariant (1/10) 10 10 (mkRenderer cfg0) _ rfl rfl rfl
    (by norm_num) (by norm_num) rfl ⟨1, rfl⟩ ?_ (by simp)
  intro p hp
  simp only [List.mem_singleton] at hp
  exact ⟨1000, by rw [hp]⟩

/-- C3 counterexample: on a freshly constructed active engine,
`zoom(targetX = 5, targetY = 7, deltaScale = 1)` does not set the state's
origin to the target point — the source destructures only `element` and
`deltaScale` from its params and never writes `originX`/`originY`. -/
theorem C3_counterexample :
    ¬ (((mkRenderer cfg0).zoom
          { element := el0, x := JSNum.num 5, y := JSNum.num 7,
            deltaScale := JSNum.num 1 }).1.state.originX = JSNum.num 5 ∧
       ((mkRenderer cfg0).zoom
          { element := el0, x := JSNum.num 5, y := JSNum.num 7,
            deltaScale := JSNum.num 1 }).1.state.originY = JSNum.num 7) := by
  decide

theorem panBy_fst_isActiveFlag (r : Renderer) (p : PanByParams) :
    ((r.panBy p).1).isActiveFlag = r.isActiveFlag := by
  by_cases h : r.isActiveFlag = false <;> simp [Renderer.panBy, h]

theorem panBy_fst_state_translateX (r : Renderer) (p : PanByParams)
    (h : r.isActiveFlag = true) :
    ((r.panBy p).1).state.translateX = jsAdd r.state.translateX p.originX := by
  simp [Renderer.panBy, h]

theorem panBy_fst_state_translateY (r : Renderer) (p : PanByParams)
    (h : r.isActiveFlag = true) :
    ((r.panBy p).1).state.translateY = jsAdd r.state.translateY p.originY := by
  simp [Renderer.panBy, h]

/-- C10: on an active engine, `panBy` changes only the translation — the
scale, the origin point and the configuration are untouched. -/
theorem C10_panBy_frame (r : Renderer) (p : PanByParams)
    (_hact : r.isActiveFlag = true) :
    ((r.panBy p).1).state.scale = r.state.scale ∧
    ((r.panBy p).1).state.originX = r.state.originX ∧
    ((r.panBy p).1).state.originY = r.state.originY ∧
    ((r.panBy p).1).config = r.config := by
  by_cases h : r.isActiveFlag = false <;> simp [Renderer.panBy, h]

/-- Witness for C10 on a concrete active engine and pan. -/
theorem C10_panBy_frame_witness :
    (mkRenderer cfg0).isActiveFlag = true ∧
    (((mkRenderer cfg0).panBy
        { element := el0, originX := JSNum.num 50, originY := JSNum.num 50 }).1.state.scale
        = (mkRenderer cfg0).state.scale ∧
     ((mkRenderer cfg0).panBy
        { element := el0, originX := JSNum.num 50, originY := JSNum.num 50 }).1.state.originX
        = (mkRenderer cfg0).state.originX ∧
     ((mkRenderer cfg0).panBy
        { element := el0, originX := JSNum.num 50, originY := JSNum.num 50 }).1.state.originY
        = (mkRenderer cfg0).state.originY ∧
     ((mkRenderer cfg0).panBy
        { element := el0, originX := JSNum.num 50, originY := JSNum.num 50 }).1.config
        = (mkRenderer cfg0).config) :=
  ⟨rfl, C10_panBy_frame (mkRenderer cfg0) _ rfl⟩

/-- C6: on an active engine, `panBy(a, b)` followed by `panBy(c, d)` yields the
same translation as the single call `panBy(a + c, b + d)` from the same
starting state, for all real deltas. -/
theorem C6_pan_additivity (r : Renderer) (el1 el2 el3 : Element) (a b c d : ℚ)
    (hact : r.isActiveFlag = true) :
    (((r.panBy ⟨el1, JSNum.num a, JSNum.num b⟩).1).panBy
        ⟨el2, JSNum.num c, JSNum.num d⟩).1.state.translateX
      = ((r.panBy ⟨el3, JSNum.num (a + c), JSNum.num (b + d)⟩).1).state.translateX ∧
    (((r.panBy ⟨el1, JSNum.num a, JSNum.num b⟩).1).panBy
        ⟨el2, JSNum.num c, JSNum.num d⟩).1.state.translateY
      = ((r.panBy ⟨el3, JSNum.num (a + c), JSNum.num (b + d)⟩).1).state.translateY := by
  have hact' : ((r.panBy ⟨el1, JSNum.num a, JSNum.num b⟩).1).isActiveFlag = true := by
    rw [panBy_fst_isActiveFlag]; exact hact
  constructor
  · rw [panBy_fst_state_translateX _ _ hact', panBy_fst_state_translateX _ _ hact,
      panBy_fst_state_translateX _ _ hact]
    exact jsAdd_num_assoc r.state.translateX a c
  · rw [panBy_fst_state_translateY _ _ hact', panBy_fst_state_translateY _ _ hact,
      panBy_fst_state_translateY _ _ hact]
    exact jsAdd_num_assoc r.state.translateY b d

/-- Witness for C6 at concrete deltas. -/
theorem C6_pan_additivity_witness :
    (mkRenderer cfg0).isActiveFlag = true ∧
    ((((mkRenderer cfg0).panBy ⟨el0, JSNum.num 3, JSNum.num 4⟩).1.panBy
          ⟨el0, JSNum.num 5, JSNum.num 6⟩).1.state.translateX
        = ((mkRenderer cfg0).panBy
            ⟨el0, JSNum.num (3 + 5), JSNum.num (4 + 6)⟩).1.state.translateX ∧
     (((mkRenderer cfg0).panBy ⟨el0, JSNum.num 3, JSNum.num 4⟩).1.panBy
          ⟨el0, JSNum.num 5, JSNum.num 6⟩).1.state.translateY
        = ((mkRenderer cfg0).panBy
            ⟨el0, JSNum.num (3 + 5), JSNum.num (4 + 6)⟩).1.state.translateY) :=
  ⟨rfl, C6_pan_additivity (mkRenderer cfg0) el0 el0 el0 3 4 5 6 rfl⟩

/-- A mutating engine operation, with its parameters. -/
inductive EngineOp where
  | zoomOp (p : ZoomParams)
  | panByOp (p : PanByParams)
  | panToOp (p : PanToParams)
  | resetOp

/-- The engine-state effect of one operation. -/
def applyOp (r : Renderer) (op : EngineOp) : Renderer :=
  match op with
  | EngineOp.zoomOp p => (r.zoom p).1
  | EngineOp.panByOp p => (r.panBy p).1
  | EngineOp.panToOp p => (r.panTo p).1
  | EngineOp.resetOp => r.reset

/-- The engine-state effect of a sequence of operations. -/
def applyOps (r : Renderer) (ops : List EngineOp) : Renderer :=
  ops.foldl applyOp r

theorem applyOp_inactive (r : Renderer) (op : EngineOp) (h : r.isActiveFlag = false) :
    applyOp r op = r := by
  cases op <;>
    simp [applyOp, Renderer.zoom, Renderer.panBy, Renderer.panTo, Renderer.reset, h]

theorem applyOps_inactive (ops : List EngineOp) :
    ∀ r : Renderer, r.isActiveFlag = false → applyOps r ops = r := by
  induction ops with
  | nil => intro r _; rfl
  | cons op ops ih =>
    intro r h
    show applyOps (applyOp r op) ops = r
    rw [applyOp_inactive r op h]
    exact ih r h

/-- C5: after `destroy()`, every sequence of `zoom`/`panBy`/`panTo`/`reset`
calls (all total functions in the model, hence never throwing) leaves
`getState()` exactly as it was, and a second `destroy()` changes nothing. -/
theorem C5_destroy_freezes_state (r : Renderer) (ops : List EngineOp) :
    (applyOps r.destroy ops).getState = r.getState ∧
    r.destroy.destroy = r.destroy := by
  refine ⟨?_, rfl⟩
  rw [applyOps_inactive ops r.destroy rfl]
  rfl

theorem jsMin_right_nan (x : JSNum) : jsMin x JSNum.nan = JSNum.nan := by
  cases x <;> rfl

theorem jsMax_right_nan (x : JSNum) : jsMax x JSNum.nan = JSNum.nan := by
  cases x <;> rfl

/-- C4 counterexample: at `currentScale = 2, deltaScale = 1, sensitivity = 10`
(bounds `0.1`/`10`, so the clamp is inactive), the math module's
`calculateScale` does not return `currentScale + deltaScale / sensitivity`
(it returns `2.2`, the plain-divisor form gives `2.1`). -/
theorem C4_counterexample :
    (calculateScale (JSNum.num 2) (JSNum.num 1) (JSNum.num (1/10)) (JSNum.num 10)
        (JSNum.num 10)).2
      ≠ jsAdd (JSNum.num 2) (jsDiv (JSNum.num 1) (JSNum.num 10)) := by
  have h1 : (calculateScale (JSNum.num 2) (JSNum.num 1) (JSNum.num (1/10)) (JSNum.num 10)
      (JSNum.num 10)).2 = JSNum.num (11/5) := by
    simp only [calculateScale, clamp]
    rw [jsDiv_num_num 10 2 (by norm_num), jsDiv_num_num 1 (10/2) (by norm_num),
      jsAdd_num_num, jsMin_num_num, jsMax_num_num]
    norm_num [min_def, max_def]
  have h2 : jsAdd (JSNum.num 2) (jsDiv (JSNum.num 1) (JSNum.num 10))
      = JSNum.num (21/10) := by
    rw [jsDiv_num_num 1 10 (by norm_num), jsAdd_num_num]
    norm_num
  rw [h1, h2]
  intro h
  injection h with h
  norm_num at h

/-- C4 amended: `calculateScale` divides the delta by `sensitivity / scale`,
i.e. its unclamped candidate is `scale + deltaScale * scale / sensitivity` —
the sensitivity is scale-adjusted, not a plain divisor.  (The plain-divisor
form `scale + deltaScale / sensitivity` is computed inline by `Renderer.zoom`
instead, see `zoom_fst_state_scale`.) -/
theorem C4_amended_calculateScale (s d mn mx sn : ℚ) (hs : s ≠ 0) (hsn : sn ≠ 0) :
    calculateScale (JSNum.num s) (JSNum.num d) (JSNum.num mn) (JSNum.num mx)
        (JSNum.num sn)
      = (JSNum.num s, JSNum.num (max mn (min (s + d * s / sn) mx))) := by
  simp only [calculateScale, clamp]
  rw [jsDiv_num_num sn s hs, jsDiv_num_num d _ (div_ne_zero hsn hs), jsAdd_num_num,
    jsMin_num_num, jsMax_num_num, div_div_eq_mul_div]

/-- Witness for the amended C4: at scale 2, delta 1, sensitivity 10 the
result is `2 + 1·2/10 = 2.2`. -/
theorem C4_amended_witness :
    (2 : ℚ) ≠ 0 ∧ (10 : ℚ) ≠ 0 ∧
    calculateScale (JSNum.num 2) (JSNum.num 1) (JSNum.num (1/10)) (JSNum.num 10)
        (JSNum.num 10)
      = (JSNum.num 2, JSNum.num (max (1/10) (min (2 + 1 * 2 / 10) 10))) :=
  ⟨by norm_num, by norm_num,
    C4_amended_calculateScale 2 1 (1/10) 10 10 (by norm_num) (by norm_num)⟩

/-- C2 counterexample: a `NaN` `deltaScale` produces a non-finite scale
candidate, yet `zoom` still overwrites the state — `getState()` after the
call differs from `getState()` before (the scale is now `NaN`). -/
theorem C2_counterexample :
    ((mkRenderer cfg0).zoom
        ⟨el0, JSNum.num 0, JSNum.num 0, JSNum.nan⟩).1.getState
      ≠ (mkRenderer cfg0).getState := by
  decide

/-- C9: `applyTransform` is not gated by the active flag — on a destroyed
engine with a valid (finite) state it writes exactly the same transform and
origin to the surface as the active engine would. -/
theorem C9_applyTransform_ungated (r : Renderer) (el : Element)
    (hval : isValidTransformation r.state.scale r.state.translateX
      r.state.translateY = true) :
    r.destroy.applyTransform el = r.applyTransform el ∧
    (r.destroy.applyTransform el).transform
      = getMatrixTransform r.state.scale r.state.translateX r.state.translateY ∧
    (r.destroy.applyTransform el).transformOrigin
      = jsToString r.state.originX ++ "px " ++ jsToString r.state.originY ++ "px" := by
  have h1 : r.destroy.applyTransform el = r.applyTransform el := rfl
  refine ⟨h1, ?_, ?_⟩ <;> rw [h1] <;> simp [Renderer.applyTransform, hval]

/-- Witness for C9 on a destroyed freshly constructed engine. -/
theorem C9_applyTransform_ungated_witness :
    isValidTransformation (mkRenderer cfg0).state.scale
        (mkRenderer cfg0).state.translateX (mkRenderer cfg0).state.translateY = true ∧
    ((mkRenderer cfg0).destroy.applyTransform el0 = (mkRenderer cfg0).applyTransform el0 ∧
     ((mkRenderer cfg0).destroy.applyTransform el0).transform
        = getMatrixTransform (mkRenderer cfg0).state.scale
            (mkRenderer cfg0).state.translateX (mkRenderer cfg0).state.translateY ∧
     ((mkRenderer cfg0).destroy.applyTransform el0).transformOrigin
        = jsToString (mkRenderer cfg0).state.originX ++ "px "
            ++ jsToString (mkRenderer cfg0).state.originY ++ "px") :=
  ⟨rfl, C9_applyTransform_ungated (mkRenderer cfg0) el0 rfl⟩

/-- The clamped scale update performed by one `zoom` step, as a function of
the current scale. -/
def zoomScaleStep (cfg : RendererConfig) (d : JSNum) (s : JSNum) : JSNum :=
  jsMax cfg.minScale (jsMin cfg.maxScale (jsAdd s (jsDiv d cfg.scaleSensitivity)))

/-- Repeating the same `zoom` call `n` times (engine state only). -/
def zoomRepeat (r : Renderer) (p : ZoomParams) (n : ℕ) : Renderer :=
  zoomFold r (List.replicate n p)

theorem zoomRepeat_scale (p : ZoomParams) (cfg : RendererConfig) :
    ∀ (n : ℕ) (r : Renderer), r.config = cfg → r.isActiveFlag = true →
      (zoomRepeat r p n).state.scale
        = (zoomScaleStep cfg p.deltaScale)^[n] r.state.scale := by
  intro n
  induction n with
  | zero => intro r _ _; rfl
  | succ n ih =>
    intro r hcfg hact
    have h1 : zoomRepeat r p (n + 1) = zoomRepeat ((r.zoom p).1) p n := by
      show zoomFold r (List.replicate (n + 1) p) = _
      rw [List.replicate_succ]
      rfl
    rw [h1, ih ((r.zoom p).1) (by rw [zoom_fst_config]; exact hcfg)
      (by rw [zoom_fst_isActiveFlag]; exact hact)]
    rw [zoom_fst_state_scale r p hact, Function.iterate_succ_apply, hcfg]
    rfl

/-- The clamped scale update on finite values, at the rational level. -/
def stepQ (mn mx sn d : ℚ) (s : ℚ) : ℚ :=
  max mn (min mx (s + d / sn))

theorem zoomScaleStep_num (mn mx sn d s : ℚ) (hsn : sn ≠ 0) :
    zoomScaleStep ⟨JSNum.num mn, JSNum.num mx, JSNum.num sn⟩ (JSNum.num d) (JSNum.num s)
      = JSNum.num (stepQ mn mx sn d s) := by
  unfold zoomScaleStep stepQ
  rw [jsDiv_num_num d sn hsn, jsAdd_num_num, jsMin_num_num, jsMax_num_num]

theorem zoomScaleStep_iterate_num (mn mx sn d : ℚ) (hsn : sn ≠ 0) :
    ∀ (n : ℕ) (s : ℚ),
      (zoomScaleStep ⟨JSNum.num mn, JSNum.num mx, JSNum.num sn⟩ (JSNum.num d))^[n]
        (JSNum.num s) = JSNum.num ((stepQ mn mx sn d)^[n] s) := by
  intro n
  induction n with
  | zero => intro s; rfl
  | succ n ih =>
    intro s
    rw [Function.iterate_succ_apply, Function.iterate_succ_apply,
      zoomScaleStep_num mn mx sn d s hsn, ih]

theorem stepQ_up_iterate :
    ∀ k : ℕ, k ≤ 90 → (stepQ (1/10) 10 10 1)^[k] (1 : ℚ) = 1 + k / 10 := by
  intro k
  induction k with
  | zero => intro _; norm_num
  | succ k ih =>
    intro hk
    have hk' : k ≤ 90 := Nat.le_of_succ_le hk
    have hkc : ((k : ℚ) + 1) ≤ 90 := by
      have h := (Nat.cast_le (α := ℚ)).mpr hk
      push_cast at h
      linarith
    have hk0 : (0 : ℚ) ≤ (k : ℚ) := Nat.cast_nonneg k
    rw [Function.iterate_succ_apply', ih hk']
    unfold stepQ
    rw [min_eq_right (by linarith : (1 : ℚ) + (k : ℚ)/10 + 1/10 ≤ 10),
      max_eq_right (by linarith : (1 : ℚ)/10 ≤ 1 + (k : ℚ)/10 + 1/10)]
    push_cast
    ring

theorem stepQ_up_fix : stepQ (1/10) 10 10 1 10 = 10 := by
  unfold stepQ
  norm_num [min_def, max_def]

theorem stepQ_down_iterate :
    ∀ k : ℕ, k ≤ 9 → (stepQ (1/10) 10 10 (-1))^[k] (1 : ℚ) = 1 - k / 10 := by
  intro k
  induction k with
  | zero => intro _; norm_num
  | succ k ih =>
    intro hk
    have hk' : k ≤ 9 := Nat.le_of_succ_le hk
    have hkc : ((k : ℚ) + 1) ≤ 9 := by
      have h := (Nat.cast_le (α := ℚ)).mpr hk
      push_cast at h
      linarith
    have hk0 : (0 : ℚ) ≤ (k : ℚ) := Nat.cast_nonneg k
    rw [Function.iterate_succ_apply', ih hk']
    unfold stepQ
    rw [min_eq_right (by linarith : (1 : ℚ) - (k : ℚ)/10 + (-1)/10 ≤ 10),
      max_eq_right (by linarith : (1 : ℚ)/10 ≤ 1 - (k : ℚ)/10 + (-1)/10)]
    push_cast
    ring

theorem stepQ_down_fix : stepQ (1/10) 10 10 (-1) (1/10) = 1/10 := by
  unfold stepQ
  norm_num [min_def, max_def]

/-- C8: with `minScale = 0.1`, `maxScale = 10`, `scaleSensitivity = 10` and
initial scale 1, one thousand `zoom(x, y, +1)` calls end with scale exactly
10, and one thousand `zoom(x, y, -1)` calls end with scale exactly 0.1
(whatever the target point and surface). -/
theorem C8_thousand_zooms (x y : JSNum) (el : Element) :
    (zoomRepeat (mkRenderer cfg0) ⟨el, x, y, JSNum.num 1⟩ 1000).state.scale
      = JSNum.num 10 ∧
    (zoomRepeat (mkRenderer cfg0) ⟨el, x, y, JSNum.num (-1)⟩ 1000).state.scale
      = JSNum.num (1/10) := by
  constructor
  · rw [zoomRepeat_scale ⟨el, x, y, JSNum.num 1⟩
        ⟨JSNum.num (1/10), JSNum.num 10, JSNum.num 10⟩ 1000 (mkRenderer cfg0) rfl rfl]
    show (zoomScaleStep _ (JSNum.num 1))^[1000] (JSNum.num 1) = JSNum.num 10
    rw [zoomScaleStep_iterate_num (1/10) 10 10 1 (by norm_num) 1000 1]
    have h90 : (stepQ (1/10) 10 10 1)^[90] (1 : ℚ) = 10 := by
      rw [stepQ_up_iterate 90 (le_refl 90)]
      norm_num
    have hval : (stepQ (1/10) 10 10 1)^[1000] (1 : ℚ) = 10 := by
      rw [show (1000 : ℕ) = 910 + 90 from rfl, Function.iterate_add_apply, h90]
      exact Function.iterate_fixed stepQ_up_fix 910
    rw [hval]
  · rw [zoomRepeat_scale ⟨el, x, y, JSNum.num (-1)⟩
        ⟨JSNum.num (1/10), JSNum.num 10, JSNum.num 10⟩ 1000 (mkRenderer cfg0) rfl rfl]
    show (zoomScaleStep _ (JSNum.num (-1)))^[1000] (JSNum.num 1) = JSNum.num (1/10)
    rw [zoomScaleStep_iterate_num (1/10) 10 10 (-1) (by norm_num) 1000 1]
    have h9 : (stepQ (1/10) 10 10 (-1))^[9] (1 : ℚ) = 1/10 := by
      rw [stepQ_down_iterate 9 (le_refl 9)]
      norm_num
    have hval : (stepQ (1/10) 10 10 (-1))^[1000] (1 : ℚ) = 1/10 := by
      rw [show (1000 : ℕ) = 991 + 9 from rfl, Function.iterate_add_apply, h9]
      exact Function.iterate_fixed stepQ_down_fix 991
    rw [hval]

/-!
Parsing the descriptor string back, as the repository's demo does
(`transform.match(/matrix\((.+)\)/)`, split on commas, trim each entry, read
it as a number, destructure entries 1, 4, 5 and 6).  The reading of one
entry exactly inverts the exact-rational rendering above, mirroring how
JavaScript's shortest-exact decimal output is recovered exactly when parsed.
-/

/-- Take characters up to (and dropping) the first occurrence of `t`. -/
def takeUntil (t : Char) : List Char → List Char × List Char
  | [] => ([], [])
  | c :: cs =>
      if c = t then ([], cs)
      else
        let p := takeUntil t cs
        (c :: p.1, p.2)

/-- Drop one leading space (each comma-separated entry after the first starts
with one; the demo trims entries before reading them). -/
def stripSpace (cs : List Char) : List Char :=
  if cs.head? = some ' ' then cs.tail else cs

/-- Require and drop a literal prefix. -/
def dropPrefixChars : List Char → List Char → Option (List Char)
  | [], cs => some cs
  | _ :: _, [] => none
  | p :: ps, c :: cs => if c = p then dropPrefixChars ps cs else none

/-- Read the decimal digits of a natural number. -/
def allVals : List Char → Option (List ℕ)
  | [] => some []
  | c :: cs =>
      match charVal c, allVals cs with
      | some d, some ds => some (d :: ds)
      | _, _ => none

/-- Parse a nonempty all-digit string as a natural number. -/
def parseNatChars (cs : List Char) : Option ℕ :=
  match allVals cs with
  | some [] => none
  | some ds => some (Nat.ofDigits 10 ds.reverse)
  | none => none

/-- Parse an unsigned rational rendering: digits, optionally followed by a
slash and the denominator's digits. -/
def parsePosRatChars (cs : List Char) : Option ℚ :=
  if '/' ∈ cs then
    let p := takeUntil '/' cs
    match parseNatChars p.1, parseNatChars p.2 with
    | some n, some d => some ((n : ℚ) / (d : ℚ))
    | _, _ => none
  else (parseNatChars cs).map (fun n => (n : ℚ))

/-- Parse a signed rational rendering. -/
def parseRatChars (cs : List Char) : Option ℚ :=
  if cs.head? = some '-' then (parsePosRatChars cs.tail).map (fun q => -q)
  else parsePosRatChars cs

/-- Parse one rendered JavaScript number. -/
def parseJSChars (cs : List Char) : Option JSNum :=
  if cs = ['N', 'a', 'N'] then some JSNum.nan
  else if cs = infChars then some JSNum.posInf
  else if cs = '-' :: infChars then some JSNum.negInf
  else (parseRatChars cs).map JSNum.num

/-- Parse a `matrix(a, b, c, d, tx, ty)` descriptor, recovering the entries
the demo destructures: the two diagonal scales and the translation. -/
def parseMatrixChars (cs : List Char) : Option (JSNum × JSNum × JSNum × JSNum) :=
  (dropPrefixChars matrixPrefixChars cs).bind fun r0 =>
    let t1 := takeUntil ',' r0
    let t2 := takeUntil ',' t1.2
    let t3 := takeUntil ',' t2.2
    let t4 := takeUntil ',' t3.2
    let t5 := takeUntil ',' t4.2
    let t6 := takeUntil ')' t5.2
    if t6.2 = [] then
      (parseJSChars (stripSpace t1.1)).bind fun a =>
        (parseJSChars (stripSpace t4.1)).bind fun d =>
          (parseJSChars (stripSpace t5.1)).bind fun tx =>
            (parseJSChars (stripSpace t6.1)).map fun ty => (a, d, tx, ty)
    else none

/-- Parse a descriptor string. -/
def parseMatrixTransform (s : String) : Option (JSNum × JSNum × JSNum × JSNum) :=
  parseMatrixChars s.data

theorem charVal_digitChar (d : ℕ) (hd : d < 10) : charVal (digitChar d) = some d := by
  interval_cases d <;> decide

theorem charVal_isSome_spec (c : Char) (h : (charVal c).isSome = true) :
    c ≠ ',' ∧ c ≠ ' ' ∧ c ≠ ')' ∧ c ≠ '/' ∧ c ≠ '-' ∧ c ≠ 'N' ∧ c ≠ 'I' := by
  unfold charVal at h
  split_ifs at h <;> first | (subst_vars; decide) | exact absurd h (by decide)

theorem natChars_ne_nil (n : ℕ) : natChars n ≠ [] := by
  unfold natChars
  split_ifs with h
  · simp
  · simp [Nat.digits_ne_nil_iff_ne_zero.mpr h]

theorem natChars_mem_isSome (n : ℕ) (c : Char) (hc : c ∈ natChars n) :
    (charVal c).isSome = true := by
  unfold natChars at hc
  split_ifs at hc with h
  · simp at hc
    subst hc
    decide
  · simp only [List.mem_reverse, List.mem_map] at hc
    obtain ⟨d, hd, rfl⟩ := hc
    rw [charVal_digitChar d (Nat.digits_lt_base (by norm_num) hd)]
    rfl

theorem natChars_head_isSome (n : ℕ) :
    ∃ c cs', natChars n = c :: cs' ∧ (charVal c).isSome = true := by
  obtain ⟨c, cs', h⟩ := List.exists_cons_of_ne_nil (natChars_ne_nil n)
  exact ⟨c, cs', h, natChars_mem_isSome n c (by rw [h]; exact List.mem_cons_self c cs')⟩

theorem ratChars_mem (q : ℚ) (c : Char) (hc : c ∈ ratChars q) :
    c = '-' ∨ c = '/' ∨ (charVal c).isSome = true := by
  unfold ratChars at hc
  rcases List.mem_append.mp hc with h1 | h2
  · rcases List.mem_append.mp h1 with h3 | h4
    · split_ifs at h3
      · simp at h3
        exact Or.inl h3
      · simp at h3
    · exact Or.inr (Or.inr (natChars_mem_isSome _ c h4))
  · split_ifs at h2
    · simp at h2
    · rcases List.mem_cons.mp h2 with h5 | h6
      · exact Or.inr (Or.inl h5)
      · exact Or.inr (Or.inr (natChars_mem_isSome _ c h6))

theorem allVals_map_digitChar (ds : List ℕ) (h : ∀ d ∈ ds, d < 10) :
    allVals (ds.map digitChar) = some ds := by
  induction ds with
  | nil => rfl
  | cons d ds ih =>
    have hd : d < 10 := h d (List.mem_cons_self d ds)
    have hds : ∀ x ∈ ds, x < 10 := fun x hx => h x (List.mem_cons_of_mem d hx)
    simp only [List.map_cons, allVals, charVal_digitChar d hd, ih hds]

theorem parseNat_natChars (n : ℕ) : parseNatChars (natChars n) = some n := by
  by_cases h : n = 0
  · subst h
    decide
  · have hform : natChars n = (Nat.digits 10 n).reverse.map digitChar := by
      rw [natChars, if_neg h, List.map_reverse]
    have hvals : allVals (natChars n) = some (Nat.digits 10 n).reverse := by
      rw [hform]
      exact allVals_map_digitChar _ (fun d hd =>
        Nat.digits_lt_base (by norm_num) (List.mem_reverse.mp hd))
    have hne : (Nat.digits 10 n).reverse ≠ [] := by
      simp [Nat.digits_ne_nil_iff_ne_zero.mpr h]
    obtain ⟨d, ds, hds⟩ := List.exists_cons_of_ne_nil hne
    rw [parseNatChars, hvals, hds]
    simp only [← hds, List.reverse_reverse, Nat.ofDigits_digits]

theorem takeUntil_append (t : Char) (w rest : List Char) (hw : t ∉ w) :
    takeUntil t (w ++ t :: rest) = (w, rest) := by
  induction w with
  | nil => simp [takeUntil]
  | cons a w ih =>
    have ha : ¬ a = t := fun h => hw (h ▸ List.mem_cons_self a w)
    have hw' : t ∉ w := fun h => hw (List.mem_cons_of_mem a h)
    simp [takeUntil, ha, ih hw']

theorem stripSpace_cons_space (l : List Char) : stripSpace (' ' :: l) = l := rfl

theorem notMem_natChars (n : ℕ) (c : Char) (hc : (charVal c).isSome = false) :
    c ∉ natChars n := by
  intro h
  rw [natChars_mem_isSome n c h] at hc
  exact absurd hc (by decide)

/-- The structure of a rendered rational: a minus sign exactly when negative,
then a digit. -/
theorem ratChars_shape (q : ℚ) :
    (¬ q < 0 ∧ ∃ c cs', ratChars q = c :: cs' ∧ (charVal c).isSome = true) ∨
    (q < 0 ∧ ∃ c cs', ratChars q = '-' :: c :: cs' ∧ (charVal c).isSome = true) := by
  obtain ⟨c, cs', hnat, hsome⟩ := natChars_head_isSome q.num.natAbs
  by_cases hq : q < 0
  · refine Or.inr ⟨hq, c, cs' ++ (if q.den = 1 then [] else '/' :: natChars q.den), ?_, hsome⟩
    rw [ratChars, if_pos hq, hnat]
    rfl
  · refine Or.inl ⟨hq, c, cs' ++ (if q.den = 1 then [] else '/' :: natChars q.den), ?_, hsome⟩
    rw [ratChars, if_neg hq, hnat]
    rfl

theorem parsePos_core (a b : ℕ) :
    parsePosRatChars (natChars a ++ (if b = 1 then [] else '/' :: natChars b))
      = some ((a : ℚ) / (b : ℚ)) := by
  have hslash : '/' ∉ natChars a := notMem_natChars a '/' (by decide)
  by_cases hb : b = 1
  · subst hb
    rw [if_pos rfl, List.append_nil, parsePosRatChars, if_neg hslash,
      parseNat_natChars a]
    simp
  · rw [if_neg hb]
    have hmem : '/' ∈ natChars a ++ '/' :: natChars b :=
      List.mem_append_right _ (List.mem_cons_self _ _)
    rw [parsePosRatChars, if_pos hmem, takeUntil_append '/' _ _ hslash]
    simp only [parseNat_natChars]

theorem parseRat_ratChars (q : ℚ) : parseRatChars (ratChars q) = some q := by
  by_cases hq : q < 0
  · have hform : ratChars q = '-' :: (natChars q.num.natAbs ++
        (if q.den = 1 then [] else '/' :: natChars q.den)) := by
      rw [ratChars, if_pos hq]
      rfl
    have hnumneg : q.num < 0 := by
      by_contra hc
      exact absurd (Rat.num_nonneg.mp (not_lt.mp hc)) (not_le.mpr hq)
    have hnum : ((q.num.natAbs : ℚ)) = -(q.num : ℚ) := by
      rw [Int.cast_natAbs, abs_of_neg hnumneg]
      push_cast
      ring
    rw [hform, parseRatChars]
    have hcond : ('-' :: (natChars q.num.natAbs ++
        (if q.den = 1 then [] else '/' :: natChars q.den))).head? = some '-' := rfl
    rw [if_pos hcond]
    simp only [List.tail_cons]
    rw [parsePos_core, hnum]
    simp only [Option.map_some', neg_div, neg_neg, Rat.num_div_den]
  · have hform : ratChars q = natChars q.num.natAbs ++
        (if q.den = 1 then [] else '/' :: natChars q.den) := by
      rw [ratChars, if_neg hq]
      rfl
    obtain ⟨c, cs', hnat, hsome⟩ := natChars_head_isSome q.num.natAbs
    have hne : ¬ ((natChars q.num.natAbs ++
        (if q.den = 1 then [] else '/' :: natChars q.den)).head? = some '-') := by
      rw [hnat]
      simp only [List.cons_append, List.head?_cons]
      intro h
      injection h with h
      exact (charVal_isSome_spec c hsome).2.2.2.2.1 h
    rw [hform, parseRatChars, if_neg hne, parsePos_core]
    have hnum : ((q.num.natAbs : ℚ)) = (q.num : ℚ) := by
      rw [Int.cast_natAbs, abs_of_nonneg (Rat.num_nonneg.mpr (not_lt.mp hq))]
    rw [hnum, Rat.num_div_den]

theorem parseJS_jsChars_num (q : ℚ) :
    parseJSChars (jsChars (JSNum.num q)) = some (JSNum.num q) := by
  have hrt := parseRat_ratChars q
  rcases ratChars_shape q with ⟨_, c, cs', hform, hsome⟩ | ⟨_, c, cs', hform, hsome⟩
  · obtain ⟨_, _, _, _, hc5, hc6, hc7⟩ := charVal_isSome_spec c hsome
    show parseJSChars (ratChars q) = _
    rw [hform] at hrt ⊢
    have hN : ¬ (c :: cs' = ['N', 'a', 'N']) := fun h => hc6 (List.cons.inj h).1
    have hI : ¬ (c :: cs' = infChars) := by
      intro h
      rw [infChars] at h
      exact hc7 (List.cons.inj h).1
    have hMI : ¬ (c :: cs' = '-' :: infChars) := fun h => hc5 (List.cons.inj h).1
    rw [parseJSChars, if_neg hN, if_neg hI, if_neg hMI, hrt]
    rfl
  · show parseJSChars (ratChars q) = _
    rw [hform] at hrt ⊢
    have hN : ¬ ('-' :: c :: cs' = ['N', 'a', 'N']) := by
      intro h
      injection h with h1 _
      exact absurd h1 (by decide)
    have hI : ¬ ('-' :: c :: cs' = infChars) := by
      intro h
      rw [infChars] at h
      injection h with h1 _
      exact absurd h1 (by decide)
    have hMI : ¬ ('-' :: c :: cs' = '-' :: infChars) := by
      intro h
      have h2 := (List.cons.inj h).2
      rw [infChars] at h2
      exact (charVal_isSome_spec c hsome).2.2.2.2.2.2 (List.cons.inj h2).1
    rw [parseJSChars, if_neg hN, if_neg hI, if_neg hMI, hrt]
    rfl

theorem stripSpace_jsChars_num (q : ℚ) :
    stripSpace (jsChars (JSNum.num q)) = jsChars (JSNum.num q) := by
  rcases ratChars_shape q with ⟨_, c, cs', hform, hsome⟩ | ⟨_, c, cs', hform, hsome⟩
  · show stripSpace (ratChars q) = ratChars q
    rw [hform]
    have h : ¬ ((c :: cs').head? = some ' ') := by
      simp only [List.head?_cons]
      intro h
      injection h with h
      exact (charVal_isSome_spec c hsome).2.1 h
    rw [stripSpace, if_neg h]
  · show stripSpace (ratChars q) = ratChars q
    rw [hform]
    have h : ¬ (('-' :: c :: cs').head? = some ' ') := by
      simp only [List.head?_cons]
      intro h
      injection h with h
      exact absurd h (by decide)
    rw [stripSpace, if_neg h]

theorem comma_notMem_jsChars_num (q : ℚ) : ',' ∉ jsChars (JSNum.num q) := by
  intro h
  rcases ratChars_mem q ',' h with h1 | h1 | h1
  · exact absurd h1 (by decide)
  · exact absurd h1 (by decide)
  · exact absurd h1 (by decide)

theorem rparen_notMem_jsChars_num (q : ℚ) : ')' ∉ jsChars (JSNum.num q) := by
  intro h
  rcases ratChars_mem q ')' h with h1 | h1 | h1
  · exact absurd h1 (by decide)
  · exact absurd h1 (by decide)
  · exact absurd h1 (by decide)

theorem takeUntil_cons_of_ne (t c : Char) (cs : List Char) (h : ¬ c = t) :
    takeUntil t (c :: cs) = (c :: (takeUntil t cs).1, (takeUntil t cs).2) := by
  simp [takeUntil, h]

theorem takeUntil_comma_cons_space (cs : List Char) :
    takeUntil ',' (' ' :: cs) = (' ' :: (takeUntil ',' cs).1, (takeUntil ',' cs).2) :=
  takeUntil_cons_of_ne ',' ' ' cs (by decide)

theorem takeUntil_comma_cons_zero (cs : List Char) :
    takeUntil ',' ('0' :: cs) = ('0' :: (takeUntil ',' cs).1, (takeUntil ',' cs).2) :=
  takeUntil_cons_of_ne ',' '0' cs (by decide)

theorem takeUntil_comma_cons_comma (cs : List Char) :
    takeUntil ',' (',' :: cs) = ([], cs) := by
  simp [takeUntil]

theorem takeUntil_rparen_cons_space (cs : List Char) :
    takeUntil ')' (' ' :: cs) = (' ' :: (takeUntil ')' cs).1, (takeUntil ')' cs).2) :=
  takeUntil_cons_of_ne ')' ' ' cs (by decide)

theorem jsFinite_eq_num (v : JSNum) (h : jsFinite v = true) : ∃ q, v = JSNum.num q := by
  cases v with
  | num q => exact ⟨q, rfl⟩
  | nan => exact absurd h (by decide)
  | posInf => exact absurd h (by decide)
  | negInf => exact absurd h (by decide)

theorem dropPrefixChars_append (ps rest : List Char) :
    dropPrefixChars ps (ps ++ rest) = some rest := by
  induction ps with
  | nil => rfl
  | cons p ps ih => simp [dropPrefixChars, ih]

/-- C7: the descriptor produced by `getMatrixTransform` is the uniform-scale
affine matrix string `matrix(s, 0, 0, s, tx, ty)`, and parsing it back (as
the repository's demo does) recovers exactly `(s, s, tx, ty)` for all finite
`s`, `tx`, `ty`. -/
theorem C7_descriptor_roundtrip (s tx ty : JSNum)
    (hs : jsFinite s = true) (htx : jsFinite tx = true) (hty : jsFinite ty = true) :
    parseMatrixTransform (getMatrixTransform s tx ty) = some (s, s, tx, ty) := by
  obtain ⟨qs, rfl⟩ := jsFinite_eq_num s hs
  obtain ⟨qx, rfl⟩ := jsFinite_eq_num tx htx
  obtain ⟨qy, rfl⟩ := jsFinite_eq_num ty hty
  have e1 : takeUntil ',' (jsChars (JSNum.num qs) ++ ',' :: ' ' :: '0' :: ',' :: ' ' ::
      '0' :: ',' :: ' ' :: (jsChars (JSNum.num qs) ++ ',' :: ' ' ::
        (jsChars (JSNum.num qx) ++ ',' :: ' ' :: (jsChars (JSNum.num qy) ++ [')']))))
      = (jsChars (JSNum.num qs), ' ' :: '0' :: ',' :: ' ' :: '0' :: ',' :: ' ' ::
        (jsChars (JSNum.num qs) ++ ',' :: ' ' :: (jsChars (JSNum.num qx) ++
          ',' :: ' ' :: (jsChars (JSNum.num qy) ++ [')'])))) :=
    takeUntil_append ',' _ _ (comma_notMem_jsChars_num qs)
  have e2 : takeUntil ',' (' ' :: '0' :: ',' :: ' ' :: '0' :: ',' :: ' ' ::
      (jsChars (JSNum.num qs) ++ ',' :: ' ' :: (jsChars (JSNum.num qx) ++
        ',' :: ' ' :: (jsChars (JSNum.num qy) ++ [')']))))
      = ([' ', '0'], ' ' :: '0' :: ',' :: ' ' :: (jsChars (JSNum.num qs) ++ ',' :: ' ' ::
        (jsChars (JSNum.num qx) ++ ',' :: ' ' :: (jsChars (JSNum.num qy) ++ [')'])))) := by
    simp only [takeUntil_comma_cons_space, takeUntil_comma_cons_zero,
      takeUntil_comma_cons_comma]
  have e3 : takeUntil ',' (' ' :: '0' :: ',' :: ' ' :: (jsChars (JSNum.num qs) ++
      ',' :: ' ' :: (jsChars (JSNum.num qx) ++ ',' :: ' ' ::
        (jsChars (JSNum.num qy) ++ [')']))))
      = ([' ', '0'], ' ' :: (jsChars (JSNum.num qs) ++ ',' :: ' ' ::
        (jsChars (JSNum.num qx) ++ ',' :: ' ' :: (jsChars (JSNum.num qy) ++ [')'])))) := by
    simp only [takeUntil_comma_cons_space, takeUntil_comma_cons_zero,
      takeUntil_comma_cons_comma]
  have e4 : takeUntil ',' (' ' :: (jsChars (JSNum.num qs) ++ ',' :: ' ' ::
      (jsChars (JSNum.num qx) ++ ',' :: ' ' :: (jsChars (JSNum.num qy) ++ [')']))))
      = (' ' :: jsChars (JSNum.num qs), ' ' :: (jsChars (JSNum.num qx) ++ ',' :: ' ' ::
        (jsChars (JSNum.num qy) ++ [')']))) := by
    rw [takeUntil_comma_cons_space, takeUntil_append ',' _ _ (comma_notMem_jsChars_num qs)]
  have e5 : takeUntil ',' (' ' :: (jsChars (JSNum.num qx) ++ ',' :: ' ' ::
      (jsChars (JSNum.num qy) ++ [')'])))
      = (' ' :: jsChars (JSNum.num qx), ' ' :: (jsChars (JSNum.num qy) ++ [')'])) := by
    rw [takeUntil_comma_cons_space, takeUntil_append ',' _ _ (comma_notMem_jsChars_num qx)]
  have e6 : takeUntil ')' (' ' :: (jsChars (JSNum.num qy) ++ [')']))
      = (' ' :: jsChars (JSNum.num qy), []) := by
    rw [takeUntil_rparen_cons_space, takeUntil_append ')' _ _ (rparen_notMem_jsChars_num qy)]
  show parseMatrixChars
      (matrixPrefixChars ++ jsChars (JSNum.num qs) ++ sepChars ++ ['0'] ++ sepChars ++
        ['0'] ++ sepChars ++ jsChars (JSNum.num qs) ++ sepChars ++ jsChars (JSNum.num qx) ++
        sepChars ++ jsChars (JSNum.num qy) ++ [')']) = _
  simp only [parseMatrixChars, List.append_assoc, sepChars, List.cons_append,
    List.nil_append, dropPrefixChars_append, Option.some_bind]
  simp only [e1, e2, e3, e4, e5, e6]
  simp only [stripSpace_cons_space, stripSpace_jsChars_num, parseJS_jsChars_num,
    Option.some_bind, Option.map_some']
  simp

/-- Witness for C7 at the values of the repository's unit test
(`getMatrixTransform(2, 10, 20)`). -/
theorem C7_descriptor_roundtrip_witness :
    jsFinite (JSNum.num 2) = true ∧ jsFinite (JSNum.num 10) = true ∧
    jsFinite (JSNum.num 20) = true ∧
    parseMatrixTransform (getMatrixTransform (JSNum.num 2) (JSNum.num 10) (JSNum.num 20))
      = some (JSNum.num 2, JSNum.num 2, JSNum.num 10, JSNum.num 20) :=
  ⟨rfl, rfl, rfl, C7_descriptor_roundtrip _ _ _ rfl rfl rfl⟩

theorem jsMin_num_posInf (a : ℚ) : jsMin (JSNum.num a) JSNum.posInf = JSNum.num a := rfl

theorem jsMin_num_negInf (a : ℚ) : jsMin (JSNum.num a) JSNum.negInf = JSNum.negInf := rfl

theorem jsMax_num_negInf (a : ℚ) : jsMax (JSNum.num a) JSNum.negInf = JSNum.num a := rfl

theorem zoom_fst_state_translateX (r : Renderer) (p : ZoomParams) :
    ((r.zoom p).1).state.translateX = r.state.translateX := by
  by_cases h : r.isActiveFlag = false <;> simp [Renderer.zoom, h]

theorem zoom_fst_state_translateY (r : Renderer) (p : ZoomParams) :
    ((r.zoom p).1).state.translateY = r.state.translateY := by
  by_cases h : r.isActiveFlag = false <;> simp [Renderer.zoom, h]

theorem zoom_snd_eq (r : Renderer) (p : ZoomParams) (h : r.isActiveFlag = true) :
    (r.zoom p).2 = ((r.zoom p).1).applyTransform p.element := by
  simp [Renderer.zoom, h]

theorem panBy_snd_eq (r : Renderer) (p : PanByParams) (h : r.isActiveFlag = true) :
    (r.panBy p).2 = ((r.panBy p).1).applyTransform p.element := by
  simp [Renderer.panBy, h]

theorem panTo_snd_eq (r : Renderer) (p : PanToParams) (h : r.isActiveFlag = true) :
    (r.panTo p).2 = ((r.panTo p).1).applyTransform p.element := by
  rcases p with ⟨e, ox, oy, sc⟩
  cases sc <;> simp [Renderer.panTo, h]

theorem panTo_fst_state_translateX (r : Renderer) (p : PanToParams)
    (h : r.isActiveFlag = true) :
    ((r.panTo p).1).state.translateX = p.originX := by
  rcases p with ⟨e, ox, oy, sc⟩
  cases sc <;> simp [Renderer.panTo, h]

theorem panBy_fst_state_originX (r : Renderer) (p : PanByParams) :
    ((r.panBy p).1).state.originX = r.state.originX := by
  by_cases h : r.isActiveFlag = false <;> simp [Renderer.panBy, h]

theorem panBy_fst_state_originY (r : Renderer) (p : PanByParams) :
    ((r.panBy p).1).state.originY = r.state.originY := by
  by_cases h : r.isActiveFlag = false <;> simp [Renderer.panBy, h]

theorem panTo_fst_state_originX (r : Renderer) (p : PanToParams) :
    ((r.panTo p).1).state.originX = r.state.originX := by
  by_cases h : r.isActiveFlag = false
  · simp [Renderer.panTo, h]
  · rcases p with ⟨e, ox, oy, sc⟩
    cases sc <;> simp [Renderer.panTo, h]

theorem panTo_fst_state_originY (r : Renderer) (p : PanToParams) :
    ((r.panTo p).1).state.originY = r.state.originY := by
  by_cases h : r.isActiveFlag = false
  · simp [Renderer.panTo, h]
  · rcases p with ⟨e, ox, oy, sc⟩
    cases sc <;> simp [Renderer.panTo, h]

theorem applyTransform_invalid (r : Renderer) (el : Element)
    (h : isValidTransformation r.state.scale r.state.translateX
      r.state.translateY = false) :
    r.applyTransform el = el := by
  simp [Renderer.applyTransform, h]

theorem applyTransform_valid (r : Renderer) (el : Element)
    (h : isValidTransformation r.state.scale r.state.translateX
      r.state.translateY = true) :
    r.applyTransform el =
      { transformOrigin := jsToString r.state.originX ++ "px " ++
          jsToString r.state.originY ++ "px"
        transform := getMatrixTransform r.state.scale r.state.translateX
          r.state.translateY } := by
  simp [Renderer.applyTransform, h]

/-- Every operation leaves a zero origin at zero: only `reset` writes the
origin, and it writes the initial zeroes. -/
theorem applyOp_origin_zero (r : Renderer) (op : EngineOp)
    (hx : r.state.originX = JSNum.num 0) (hy : r.state.originY = JSNum.num 0) :
    (applyOp r op).state.originX = JSNum.num 0 ∧
    (applyOp r op).state.originY = JSNum.num 0 := by
  cases op with
  | zoomOp p =>
    exact ⟨by rw [applyOp, zoom_fst_state_originX, hx],
      by rw [applyOp, zoom_fst_state_originY, hy]⟩
  | panByOp p =>
    exact ⟨by rw [applyOp, panBy_fst_state_originX, hx],
      by rw [applyOp, panBy_fst_state_originY, hy]⟩
  | panToOp p =>
    exact ⟨by rw [applyOp, panTo_fst_state_originX, hx],
      by rw [applyOp, panTo_fst_state_originY, hy]⟩
  | resetOp =>
    by_cases h : r.isActiveFlag = false
    · exact ⟨by simp [applyOp, Renderer.reset, h, hx],
        by simp [applyOp, Renderer.reset, h, hy]⟩
    · exact ⟨by simp [applyOp, Renderer.reset, h, getInitialState],
        by simp [applyOp, Renderer.reset, h, getInitialState]⟩

theorem applyOps_origin_zero (ops : List EngineOp) :
    ∀ r : Renderer, r.state.originX = JSNum.num 0 → r.state.originY = JSNum.num 0 →
      (applyOps r ops).state.originX = JSNum.num 0 ∧
      (applyOps r ops).state.originY = JSNum.num 0 := by
  induction ops with
  | nil => intro r hx hy; exact ⟨hx, hy⟩
  | cons op ops ih =>
    intro r hx hy
    show (applyOps (applyOp r op) ops).state.originX = JSNum.num 0 ∧
      (applyOps (applyOp r op) ops).state.originY = JSNum.num 0
    obtain ⟨hx', hy'⟩ := applyOp_origin_zero r op hx hy
    exact ih (applyOp r op) hx' hy'

/-- C2 amended: non-finite candidates are not rejected and the previous state
is not retained.  `zoom`, `panBy` and `panTo` still overwrite the state with
the computed value: a `NaN` zoom candidate makes the stored scale `NaN`, an
infinite zoom candidate is clamped to the nearer bound (`maxScale` for `+∞`,
`minScale` for `-∞`) and — the rest of the state being finite — is emitted
normally, and non-finite pan translations are stored as computed.  Only the
surface emission is withheld, and only when the resulting
`(scale, translateX, translateY)` is not finite. -/
theorem C2_amended_nonfinite_not_rejected (r : Renderer) (mn mx : ℚ)
    (p1 p2 p3 : ZoomParams) (pb : PanByParams) (pt : PanToParams)
    (hact : r.isActiveFlag = true)
    (hmn : r.config.minScale = JSNum.num mn) (hmx : r.config.maxScale = JSNum.num mx)
    (hle : mn ≤ mx)
    (htxf : jsFinite r.state.translateX = true)
    (htyf : jsFinite r.state.translateY = true)
    (hc1 : jsAdd r.state.scale (jsDiv p1.deltaScale r.config.scaleSensitivity)
      = JSNum.nan)
    (hc2 : jsAdd r.state.scale (jsDiv p2.deltaScale r.config.scaleSensitivity)
      = JSNum.posInf)
    (hc3 : jsAdd r.state.scale (jsDiv p3.deltaScale r.config.scaleSensitivity)
      = JSNum.negInf)
    (hcb : jsFinite (jsAdd r.state.translateX pb.originX) = false)
    (hct : jsFinite pt.originX = false) :
    ((r.zoom p1).1.state.scale = JSNum.nan ∧ (r.zoom p1).2 = p1.element) ∧
    ((r.zoom p2).1.state.scale = JSNum.num mx ∧
      (r.zoom p2).2 =
        { transformOrigin := jsToString r.state.originX ++ "px " ++
            jsToString r.state.originY ++ "px"
          transform := getMatrixTransform (JSNum.num mx) r.state.translateX
            r.state.translateY }) ∧
    ((r.zoom p3).1.state.scale = JSNum.num mn ∧
      (r.zoom p3).2 =
        { transformOrigin := jsToString r.state.originX ++ "px " ++
            jsToString r.state.originY ++ "px"
          transform := getMatrixTransform (JSNum.num mn) r.state.translateX
            r.state.translateY }) ∧
    ((r.panBy pb).1.state.translateX = jsAdd r.state.translateX pb.originX ∧
      (r.panBy pb).2 = pb.element) ∧
    ((r.panTo pt).1.state.translateX = pt.originX ∧ (r.panTo pt).2 = pt.element) := by
  have hs1 : (r.zoom p1).1.state.scale = JSNum.nan := by
    rw [zoom_fst_state_scale _ _ hact, hc1, jsMin_right_nan, jsMax_right_nan]
  have hs2 : (r.zoom p2).1.state.scale = JSNum.num mx := by
    rw [zoom_fst_state_scale _ _ hact, hc2, hmx, hmn, jsMin_num_posInf,
      jsMax_num_num, max_eq_right hle]
  have hs3 : (r.zoom p3).1.state.scale = JSNum.num mn := by
    rw [zoom_fst_state_scale _ _ hact, hc3, hmx, hmn, jsMin_num_negInf,
      jsMax_num_negInf]
  refine ⟨⟨hs1, ?_⟩, ⟨hs2, ?_⟩, ⟨hs3, ?_⟩, ⟨panBy_fst_state_translateX _ _ hact, ?_⟩,
    ⟨panTo_fst_state_translateX _ _ hact, ?_⟩⟩
  · rw [zoom_snd_eq _ _ hact]
    apply applyTransform_invalid
    rw [hs1]
    simp [isValidTransformation, jsFinite]
  · have hval : isValidTransformation (r.zoom p2).1.state.scale
        (r.zoom p2).1.state.translateX (r.zoom p2).1.state.translateY = true := by
      rw [hs2, zoom_fst_state_translateX, zoom_fst_state_translateY]
      simp only [isValidTransformation, htxf, htyf]
      rfl
    rw [zoom_snd_eq _ _ hact, applyTransform_valid _ _ hval, zoom_fst_state_originX,
      zoom_fst_state_originY, zoom_fst_state_translateX, zoom_fst_state_translateY, hs2]
  · have hval : isValidTransformation (r.zoom p3).1.state.scale
        (r.zoom p3).1.state.translateX (r.zoom p3).1.state.translateY = true := by
      rw [hs3, zoom_fst_state_translateX, zoom_fst_state_translateY]
      simp only [isValidTransformation, htxf, htyf]
      rfl
    rw [zoom_snd_eq _ _ hact, applyTransform_valid _ _ hval, zoom_fst_state_originX,
      zoom_fst_state_originY, zoom_fst_state_translateX, zoom_fst_state_translateY, hs3]
  · rw [panBy_snd_eq _ _ hact]
    apply applyTransform_invalid
    rw [panBy_fst_state_translateX _ _ hact]
    simp [isValidTransformation, hcb]
  · rw [panTo_snd_eq _ _ hact]
    apply applyTransform_invalid
    rw [panTo_fst_state_translateX _ _ hact]
    simp [isValidTransformation, hct]

/-- Zoom parameters whose candidate scale is `NaN` on a fresh engine. -/
def pNaN : ZoomParams := ⟨el0, JSNum.num 0, JSNum.num 0, JSNum.nan⟩

/-- Zoom parameters whose candidate scale is `+∞` on a fresh engine. -/
def pPlusInf : ZoomParams := ⟨el0, JSNum.num 0, JSNum.num 0, JSNum.posInf⟩

/-- Zoom parameters whose candidate scale is `-∞` on a fresh engine. -/
def pMinusInf : ZoomParams := ⟨el0, JSNum.num 0, JSNum.num 0, JSNum.negInf⟩

/-- Pan deltas producing a `NaN` translation candidate. -/
def pbNaN : PanByParams := ⟨el0, JSNum.nan, JSNum.num 0⟩

/-- An absolute pan target with an infinite coordinate. -/
def ptInf : PanToParams := ⟨el0, JSNum.posInf, JSNum.num 0, none⟩

/-- Witness for the amended C2: on a fresh engine, every hypothesis holds for
the concrete `NaN`, `+∞` and `-∞` zoom deltas, the `NaN` pan delta and the
infinite pan target. -/
theorem C2_amended_witness :
    (mkRenderer cfg0).isActiveFlag = true ∧
    (mkRenderer cfg0).config.minScale = JSNum.num (1/10) ∧
    (mkRenderer cfg0).config.maxScale = JSNum.num 10 ∧
    (1/10 : ℚ) ≤ 10 ∧
    jsFinite (mkRenderer cfg0).state.translateX = true ∧
    jsFinite (mkRenderer cfg0).state.translateY = true ∧
    jsAdd (mkRenderer cfg0).state.scale
      (jsDiv pNaN.deltaScale (mkRenderer cfg0).config.scaleSensitivity) = JSNum.nan ∧
    jsAdd (mkRenderer cfg0).state.scale
      (jsDiv pPlusInf.deltaScale (mkRenderer cfg0).config.scaleSensitivity)
      = JSNum.posInf ∧
    jsAdd (mkRenderer cfg0).state.scale
      (jsDiv pMinusInf.deltaScale (mkRenderer cfg0).config.scaleSensitivity)
      = JSNum.negInf ∧
    jsFinite (jsAdd (mkRenderer cfg0).state.translateX pbNaN.originX) = false ∧
    jsFinite ptInf.originX = false ∧
    ((((mkRenderer cfg0).zoom pNaN).1.state.scale = JSNum.nan ∧
      ((mkRenderer cfg0).zoom pNaN).2 = pNaN.element) ∧
     (((mkRenderer cfg0).zoom pPlusInf).1.state.scale = JSNum.num 10 ∧
      ((mkRenderer cfg0).zoom pPlusInf).2 =
        { transformOrigin := jsToString (mkRenderer cfg0).state.originX ++ "px " ++
            jsToString (mkRenderer cfg0).state.originY ++ "px"
          transform := getMatrixTransform (JSNum.num 10)
            (mkRenderer cfg0).state.translateX (mkRenderer cfg0).state.translateY }) ∧
     (((mkRenderer cfg0).zoom pMinusInf).1.state.scale = JSNum.num (1/10) ∧
      ((mkRenderer cfg0).zoom pMinusInf).2 =
        { transformOrigin := jsToString (mkRenderer cfg0).state.originX ++ "px " ++
            jsToString (mkRenderer cfg0).state.originY ++ "px"
          transform := getMatrixTransform (JSNum.num (1/10))
            (mkRenderer cfg0).state.translateX (mkRenderer cfg0).state.translateY }) ∧
     (((mkRenderer cfg0).panBy pbNaN).1.state.translateX
        = jsAdd (mkRenderer cfg0).state.translateX pbNaN.originX ∧
      ((mkRenderer cfg0).panBy pbNaN).2 = pbNaN.element) ∧
     (((mkRenderer cfg0).panTo ptInf).1.state.translateX = ptInf.originX ∧
      ((mkRenderer cfg0).panTo ptInf).2 = ptInf.element)) :=
  ⟨rfl, rfl, rfl, by norm_num, rfl, rfl, rfl, rfl, rfl, rfl, rfl,
    C2_amended_nonfinite_not_rejected (mkRenderer cfg0) (1/10) 10 pNaN pPlusInf
      pMinusInf pbNaN ptInf rfl rfl rfl (by norm_num) rfl rfl rfl rfl rfl rfl rfl⟩

/-- C3 amended: `zoom` ignores its `targetX`/`targetY` arguments and leaves
`originX` and `originY` unchanged; moreover, from construction the origin
stays `(0, 0)` through every sequence of `zoom`/`panBy`/`panTo`/`reset`
calls (only `reset` writes it, and it writes the initial zeroes), so
anchoring via the transform-origin point never tracks the target. -/
theorem C3_amended_zoom_preserves_origin (r : Renderer) (p : ZoomParams)
    (cfg : RendererConfigIn) (ops : List EngineOp)
    (_hact : r.isActiveFlag = true) :
    (((r.zoom p).1).state.originX = r.state.originX ∧
     ((r.zoom p).1).state.originY = r.state.originY) ∧
    ((applyOps (mkRenderer cfg) ops).state.originX = JSNum.num 0 ∧
     (applyOps (mkRenderer cfg) ops).state.originY = JSNum.num 0) :=
  ⟨⟨zoom_fst_state_originX r p, zoom_fst_state_originY r p⟩,
    applyOps_origin_zero ops (mkRenderer cfg) rfl rfl⟩

/-- Witness for the amended C3: a concrete active engine, a zoom at target
`(5, 7)`, and a concrete operation sequence exercising every operation. -/
theorem C3_amended_witness :
    (mkRenderer cfg0).isActiveFlag = true ∧
    ((((mkRenderer cfg0).zoom
          { element := el0, x := JSNum.num 5, y := JSNum.num 7,
            deltaScale := JSNum.num 1 }).1.state.originX
        = (mkRenderer cfg0).state.originX ∧
      ((mkRenderer cfg0).zoom
          { element := el0, x := JSNum.num 5, y := JSNum.num 7,
            deltaScale := JSNum.num 1 }).1.state.originY
        = (mkRenderer cfg0).state.originY) ∧
     ((applyOps (mkRenderer cfg0)
          [EngineOp.zoomOp ⟨el0, JSNum.num 5, JSNum.num 7, JSNum.num 1⟩,
           EngineOp.panByOp ⟨el0, JSNum.num 50, JSNum.num 50⟩,
           EngineOp.panToOp ⟨el0, JSNum.num 100, JSNum.num 150, some (JSNum.num 2)⟩,
           EngineOp.resetOp]).state.originX = JSNum.num 0 ∧
      (applyOps (mkRenderer cfg0)
          [EngineOp.zoomOp ⟨el0, JSNum.num 5, JSNum.num 7, JSNum.num 1⟩,
           EngineOp.panByOp ⟨el0, JSNum.num 50, JSNum.num 50⟩,
           EngineOp.panToOp ⟨el0, JSNum.num 100, JSNum.num 150, some (JSNum.num 2)⟩,
           EngineOp.resetOp]).state.originY = JSNum.num 0)) :=
  ⟨rfl, C3_amended_zoom_preserves_origin (mkRenderer cfg0)
    { element := el0, x := JSNum.num 5, y := JSNum.num 7, deltaScale := JSNum.num 1 }
    cfg0
    [EngineOp.zoomOp ⟨el0, JSNum.num 5, JSNum.num 7, JSNum.num 1⟩,
     EngineOp.panByOp ⟨el0, JSNum.num 50, JSNum.num 50⟩,
     EngineOp.panToOp ⟨el0, JSNum.num 100, JSNum.num 150, some (JSNum.num 2)⟩,
     EngineOp.resetOp]
    rfl⟩
